import Mathlib

/-!
# Verification of the Not-Sure recording backend

A shallow embedding, in Lean 4, of the core of the `Not-Sure` meeting
assistant (`src/backend.py`, `src/main_app.py`): the session lifecycle
(`start_recording` / `stop_recording`), the capture engine's file handling
(`record_audio`), the live transcript loop (`live_transcribe_loop`), the
insight loop (`live_summary_loop`), the meeting-coach loop
(`live_coach_loop` and `_check_time_warnings`), hybrid mixing
(`record_dual_device`), the summary router (`generate_summary`), and the
history store (`save_to_history`).

Python dictionaries with a known set of keys are embedded as structures
whose possibly-absent keys are `Option` fields; byte strings and files are
modelled by their sizes; wall-clock quantities are passed in as explicit
rational parameters; the outcome of every external call (device I/O,
ffmpeg, whisper, LLM providers) is an explicit input of the function that
the source obtains it in, so each background loop becomes a pure fold over
the list of its per-tick environments.
-/

namespace NotSure

/-- Python `str.strip()`: drop whitespace at both ends. -/
def pyStrip (s : String) : String :=
  String.mk (((s.data.dropWhile Char.isWhitespace).reverse.dropWhile Char.isWhitespace).reverse)

/-- Python `s.startswith(p)`, on code points. -/
def pyStartsWith (s p : String) : Bool :=
  p.data.isPrefixOf s.data

/-- Python `int(q)` on a non-negative quantity: truncation toward zero. -/
def pyInt (q : ℚ) : ℤ :=
  if 0 ≤ q then ⌊q⌋ else ⌈q⌉

/-- Python `f"\x7bn:02d\x7d"` for the non-negative numbers produced by `divmod`. -/
def pad2 (n : ℤ) : String :=
  if 0 ≤ n ∧ n < 10 then "0" ++ toString n else toString n

/-- Python `m, s = divmod(total, 60)` followed by `f"\x7bm:02d\x7d:\x7bs:02d\x7d"`
(`backend.py` builds coach timestamps this way). -/
def fmtClock (total : ℤ) : String :=
  pad2 (Int.fdiv total 60) ++ ":" ++ pad2 (Int.fmod total 60)

/-! ## Session lifecycle (`backend.py` 302-386)

`EnhancedAudioApp` keeps `is_recording`, `_processing_audio` (the guard set
by `stop_recording` and cleared when `_async_stop_and_process` finishes)
and `model_loading`.  `finalize_runs` counts the `process_audio`
invocations triggered (each non-ignored `stop_recording` spawns
`_async_stop_and_process`, which calls `process_audio` exactly once), and
`sessions_started` counts the successful starts. -/

structure SessionState where
  is_recording : Bool
  processing : Bool
  model_loading : Bool
  finalize_runs : ℕ
  sessions_started : ℕ
deriving Repr, DecidableEq

/-- Environment of one `start_recording` call: whether the permission check
and the device check for the selected mode succeed (`backend.py` 311-333). -/
structure DeviceEnv where
  device_ok : Bool
deriving Repr, DecidableEq

/-- Model of `start_recording` (`backend.py` 302-357): returns if already recording,
if the model is still loading, or if permissions/devices are missing;
otherwise flips `is_recording` and starts the session's threads.  It does
not consult `_processing_audio`. -/
def start_recording (env : DeviceEnv) (s : SessionState) : SessionState :=
  if s.is_recording then s
  else if s.model_loading then s
  else if !env.device_ok then s
  else { s with is_recording := true, sessions_started := s.sessions_started + 1 }

/-- Model of `stop_recording` (`backend.py` 359-369): ignored while
`_processing_audio` is set; otherwise clears `is_recording`, sets
`_processing_audio` and spawns `_async_stop_and_process`, which runs
`process_audio` once. -/
def stop_recording (s : SessionState) : SessionState :=
  if s.processing then s
  else { s with is_recording := false, processing := true,
                finalize_runs := s.finalize_runs + 1 }

/-- Completion of `_async_stop_and_process` (`backend.py` 385-386): the
`finally` block clears `_processing_audio`, returning the session to Idle. -/
def finish_processing (s : SessionState) : SessionState :=
  { s with processing := false }

/-- The lifecycle events a consumer can trigger. -/
inductive SessionEvent
  | start (device_ok : Bool)
  | stop
  | finishProcessing
deriving Repr, DecidableEq

def sessionStep (s : SessionState) : SessionEvent → SessionState
  | .start ok => start_recording ⟨ok⟩ s
  | .stop => stop_recording s
  | .finishProcessing => finish_processing s

def runSession (s : SessionState) (es : List SessionEvent) : SessionState :=
  es.foldl sessionStep s

/-- A session in the Capturing state, with its finalization not yet triggered. -/
def capturingState : SessionState :=
  { is_recording := true, processing := false, model_loading := false,
    finalize_runs := 0, sessions_started := 1 }

/-- A session in the Stopping/Finalization phase: recording flag already
cleared, `_processing_audio` still set. -/
def stoppingState : SessionState :=
  { is_recording := false, processing := true, model_loading := false,
    finalize_runs := 1, sessions_started := 1 }

/-! ## Capture engine file handling (`record_audio`, `backend.py` 388-469)

`tempfile.mkstemp` *creates* a zero-byte file at the canonical path
(`temp_audio_file`) and the descriptor is closed immediately; samples are
then appended to the sibling `part_file = temp_audio_file + '.part'`
opened through the `wave` module (whose header occupies 44 bytes); when
capture ends the part file is renamed over the canonical path
(`os.rename`), falling back to `shutil.copy2` + `os.remove` on `OSError`.
Files are modelled by their byte size. -/

/-- Size in bytes of the header `wave.open(..., 'wb')` writes before any
`writeframes` data. -/
def wavHeaderBytes : ℕ := 44

/-- The file system restricted to the two paths `record_audio` touches:
`none` means the path is absent, `some n` a file of `n` bytes. -/
structure RecFS where
  canonical : Option ℕ
  part : Option ℕ
deriving Repr, DecidableEq

/-- The file-system events of one `record_audio` run. -/
inductive RecEvent
  | mkstemp
  | openPart
  | writeFrame (n : ℕ)
  | promote (renameOk : Bool)
deriving Repr, DecidableEq

/-- Effect of each `record_audio` step on the two paths.  `mkstemp`
creates the empty canonical file; `openPart` writes the wave header to the
sibling; `writeFrame n` appends `n` bytes of samples to the sibling;
`promote` moves the sibling's contents to the canonical path — both the
`os.rename` branch and the `copy2`-then-`remove` fallback end in the same
state, and if the part file is absent (`FileNotFoundError`) nothing happens. -/
def recStep (fs : RecFS) : RecEvent → RecFS
  | .mkstemp => { fs with canonical := some 0 }
  | .openPart => { fs with part := some wavHeaderBytes }
  | .writeFrame n => { fs with part := fs.part.map (· + n) }
  | .promote _ =>
    match fs.part with
    | none => fs
    | some sz => { canonical := some sz, part := none }

def runRec (fs : RecFS) (es : List RecEvent) : RecFS :=
  es.foldl recStep fs

/-- Before `record_audio` runs, neither path exists. -/
def initFS : RecFS := { canonical := none, part := none }

/-- The event sequence of a complete `record_audio` run capturing the
given data blocks. -/
def record_audio_trace (frames : List ℕ) (renameOk : Bool) : List RecEvent :=
  [RecEvent.mkstemp, RecEvent.openPart] ++ frames.map RecEvent.writeFrame
    ++ [RecEvent.promote renameOk]

/-- The capture phase of the trace: everything before promotion. -/
def captureEvents (frames : List ℕ) : List RecEvent :=
  [RecEvent.mkstemp, RecEvent.openPart] ++ frames.map RecEvent.writeFrame

/-! ## Live transcript tracker (`live_transcribe_loop`, `backend.py` 471-541)

One iteration of the loop, as a function of everything the environment
decides during that iteration.  The loop body: skip if the whisper model
is not loaded; skip if the part file is missing, unreadable, or below
8000 bytes; **break** if ffmpeg was not resolved at startup; run ffmpeg
(failure or timeout: skip), then whisper (failure: skip). -/

inductive FfmpegOutcome
  | success
  | failed
  | timedOut
deriving Repr, DecidableEq

structure TranscribeTick where
  model_loaded : Bool
  part_file_exists : Bool
  file_size : Option ℕ
  ffmpeg_available : Bool
  ffmpeg : FfmpegOutcome
  transcription : Except String String
deriving Repr

inductive TickResult
  | continueLoop
  | exitLoop
deriving Repr, DecidableEq

/-- One iteration of `live_transcribe_loop`, reduced to whether the loop
keeps running afterwards. -/
def live_transcribe_tick (t : TranscribeTick) : TickResult :=
  if !t.model_loaded then .continueLoop
  else if !t.part_file_exists then .continueLoop
  else
    match t.file_size with
    | none => .continueLoop
    | some sz =>
      if sz < 8000 then .continueLoop
      else if !t.ffmpeg_available then .exitLoop
      else
        match t.ffmpeg with
        | .failed => .continueLoop
        | .timedOut => .continueLoop
        | .success =>
          match t.transcription with
          | .error _ => .continueLoop
          | .ok _ => .continueLoop

/-! ## Hybrid dual-device mixing (`record_dual_device`, `main_app.py` 169-209)

Per iteration the combining loop takes a mono microphone frame and a
stereo system frame, downmixes the system frame with
`(s_arr[0::2] + s_arr[1::2]) // 2` — `numpy` `int16` arithmetic, so the
sum wraps modulo 2^16 — widens to `int32`, adds sample-wise over the
common prefix (`min_len`), and clamps with `np.clip(mixed, -32768, 32767)`
before converting back to `int16`. -/

/-- The `numpy` `int16` wrap-around. -/
def wrapInt16 (z : ℤ) : ℤ := (z + 32768) % 65536 - 32768

/-- Python `(l + r) // 2` evaluated in `int16`: wrapping sum, then floor division. -/
def downmixSample (l r : ℤ) : ℤ := Int.fdiv (wrapInt16 (l + r)) 2

/-- Model of `np.clip(z, -32768, 32767)`. -/
def clipInt16 (z : ℤ) : ℤ := max (-32768) (min z 32767)

/-- One output sample: microphone sample plus downmixed system sample,
summed in `int32` (exact) and clamped. -/
def mixSample (m l r : ℤ) : ℤ := clipInt16 (m + downmixSample l r)

/-- One iteration's output frame; the stereo system frame is given as the
list of its (left, right) pairs, and `zipWith` truncates to `min_len`. -/
def record_dual_mix (mic : List ℤ) (sys : List (ℤ × ℤ)) : List ℤ :=
  List.zipWith (fun m s => mixSample m s.1 s.2) mic sys

/-! ## Session history store (`save_to_history`, `backend.py` 1529-1537)

`save_to_history` fills in a `transcript` and `timestamp` key when the
summary dict lacks them, prepends the entry with
`chat_history.insert(0, entry)` and serializes the whole list.  A history
entry is modelled by the two keys the function inspects plus an opaque
payload standing for the remaining summary fields. -/

structure HistoryEntry where
  transcript : Option String
  timestamp : Option String
  payload : String
deriving Repr, DecidableEq

/-- The entry actually stored: missing `transcript` / `timestamp` keys are
filled in from the transcript argument and the current time. -/
def normalizeEntry (transcript now : String) (summary_data : HistoryEntry) : HistoryEntry :=
  { summary_data with
    transcript := some (summary_data.transcript.getD transcript),
    timestamp := some (summary_data.timestamp.getD now) }

/-- Model of `save_to_history`: the list written out to `audio_history.json`. -/
def save_to_history (chat_history : List HistoryEntry) (transcript now : String)
    (summary_data : HistoryEntry) : List HistoryEntry :=
  normalizeEntry transcript now summary_data :: chat_history

def dummyEntry : HistoryEntry :=
  { transcript := none, timestamp := none, payload := "summary" }

/-! ## LLM router error classification (`_call_llm_json`, `backend.py` 543-656)

`_call_llm_json` returns `(data, meta)` where a failed call carries one of
the error tags below in `meta["error"]`.  Both `live_summary_loop`
(726-742) and `live_coach_loop` (949-958) break out of their loop when the
tag is in this set or starts with `unsupported_provider`. -/

def fatalInsightErrors : List String :=
  ["gemini_unavailable", "gemini_no_key", "ollama_not_running",
   "openai_unavailable", "openai_no_key", "anthropic_unavailable",
   "anthropic_no_key"]

/-- The loop-terminating test both periodic LLM loops apply to
`meta.get("error")`. -/
def isFatalInsightError : Option String → Bool
  | none => false
  | some e => fatalInsightErrors.contains e || pyStartsWith e "unsupported_provider"

/-! ## Insight state and merge (`live_summary_loop`, `backend.py` 658-772)

`live_insights` is a dict with eight fixed keys, reset at the start of
every session (670-680).  A successful tick merges the parsed LLM result
with `self.live_insights.update(data)` (752): every key present in the
result replaces the stored value, keys absent from the result are kept. -/

structure ActionItem where
  text : String
  assignee : Option String
deriving Repr, DecidableEq

structure InsightState where
  meeting_type : Option String
  confidence : ℚ
  key_points : List String
  action_items : List ActionItem
  decisions : List String
  sentiment : String
  suggested_questions : List String
  topic : String
deriving Repr, DecidableEq

/-- The reset value installed at the top of `live_summary_loop` (670-680). -/
def initialInsightState : InsightState :=
  { meeting_type := none, confidence := 0, key_points := [],
    action_items := [], decisions := [], sentiment := "neutral",
    suggested_questions := [], topic := "" }

/-- The parsed JSON object of one successful insight tick: each canonical
key either present with a value or absent. -/
structure InsightDelta where
  meeting_type : Option (Option String)
  confidence : Option ℚ
  key_points : Option (List String)
  action_items : Option (List ActionItem)
  decisions : Option (List String)
  sentiment : Option String
  suggested_questions : Option (List String)
  topic : Option String
deriving Repr, DecidableEq

/-- Model of `self.live_insights.update(data)`: per-key overwrite when present. -/
def mergeInsights (st : InsightState) (d : InsightDelta) : InsightState :=
  { meeting_type := d.meeting_type.getD st.meeting_type,
    confidence := d.confidence.getD st.confidence,
    key_points := d.key_points.getD st.key_points,
    action_items := d.action_items.getD st.action_items,
    decisions := d.decisions.getD st.decisions,
    sentiment := d.sentiment.getD st.sentiment,
    suggested_questions := d.suggested_questions.getD st.suggested_questions,
    topic := d.topic.getD st.topic }

/-- Environment of one iteration of `live_summary_loop`: the transcript
snapshot read under the lock, and the `(data, meta)` pair returned by
`_call_llm_json`. -/
structure SummaryTick where
  transcript : String
  result : Option InsightDelta
  error : Option String
  elapsed : Option ℚ
deriving Repr, DecidableEq

/-- State owned by `live_summary_loop`, together with the shared recording
flag it only ever reads. -/
structure SummaryLoopState where
  insights : InsightState
  calls : ℕ
  summary_count : ℕ
  ollama_disabled : Bool
  recording : Bool
deriving Repr, DecidableEq

def initialSummaryLoopState : SummaryLoopState :=
  { insights := initialInsightState, calls := 0, summary_count := 0,
    ollama_disabled := false, recording := true }

/-- Model of `live_summary_loop` (688-771) as a fold over the iterations it gets to
run while `is_recording` holds: skip the tick when the stripped transcript
is shorter than 50 characters; stop before calling when Ollama was
auto-disabled; otherwise issue one `_call_llm_json` call, stop after it on
a fatal error tag, auto-disable Ollama when the call took more than 45
seconds, and on parsed data update the insight dict and the counters. -/
def summaryLoop (llm : String) : List SummaryTick → SummaryLoopState → SummaryLoopState
  | [], s => s
  | t :: rest, s =>
    if (pyStrip t.transcript).length < 50 then summaryLoop llm rest s
    else if llm = "ollama" ∧ s.ollama_disabled then s
    else
      let s1 := { s with calls := s.calls + 1 }
      if isFatalInsightError t.error then s1
      else
        let s2 := if llm = "ollama" ∧ (t.elapsed.getD 0) > 45
          then { s1 with ollama_disabled := true } else s1
        match t.result with
        | some d =>
          summaryLoop llm rest
            { s2 with insights := mergeInsights s2.insights d,
                      summary_count := s2.summary_count + 1 }
        | none => summaryLoop llm rest s2

/-! ## Finalization summary router (`generate_summary`, `backend.py` 1100-1527)

`generate_summary` dispatches on the configured provider name.  Each
`_summarize_with_*` branch either returns `error_summary(...)` or, on a
parsed JSON object, enriches it with `date` and `transcript`; the Ollama,
OpenAI and Anthropic branches additionally backfill missing `tasks`,
`highlights` and `full_summary_sections` keys, the Gemini branch does
not.  The Ollama branch turns a JSON parse failure into a salvage record
built from the raw response text.  The parsed provider JSON and the
returned dict are modelled with `Option` fields for possibly-absent
keys. -/

structure Task where
  description : String
  assignee : Option String
  due_date : Option String
deriving Repr, DecidableEq

/-- The JSON object a provider returns on success, restricted to the keys
`generate_summary` and its callers inspect. -/
structure SummaryJson where
  title : Option String
  executive_summary : Option String
  tasks : Option (List Task)
  highlights : Option (List String)
  full_summary_sections : Option (List String)
deriving Repr, DecidableEq

/-- The dict `generate_summary` hands to Finalization. -/
structure SummaryResult where
  title : Option String
  executive_summary : Option String
  full_summary : Option String
  tasks : Option (List Task)
  highlights : Option (List String)
  full_summary_sections : Option (List String)
  transcript : Option String
  date : Option String
deriving Repr, DecidableEq

/-- How one summarization attempt can end; constructors cover the failure
classes the four provider branches catch (missing library, missing key,
health-check/connection failure, request timeout, JSON parse failure of
the response *body* with the raw text that was obtained, any other
exception) plus success.  `malformedEnvelope` is a `json.JSONDecodeError`
raised before any response text is in hand: for Ollama that is
`response.json()` (`backend.py` 1320) failing on the HTTP envelope, with
the local `text` still unbound; for the SDK providers an equivalent
decode error raised inside the SDK call. -/
inductive ProviderOutcome
  | libMissing
  | keyMissing
  | connectionFailed
  | requestTimeout
  | malformedJson (raw : String)
  | malformedEnvelope
  | otherError (msg : String)
  | ok (data : SummaryJson)
deriving Repr, DecidableEq

/-- Model of `error_summary` (`backend.py` 1254-1255). -/
def error_summary (error_msg transcript : String) : SummaryResult :=
  { title := some "Error Processing", executive_summary := some error_msg,
    full_summary := some "", tasks := some [],
    highlights := none, full_summary_sections := none,
    transcript := some transcript, date := none }

/-- Model of `_safe_error_message` (`backend.py` 1114-1131), at the granularity of
the outcome constructors. -/
def safe_error_message : ProviderOutcome → String
  | .connectionFailed => "Could not connect to the AI service"
  | .requestTimeout => "AI service timed out"
  | _ => "An unexpected error occurred during AI processing"

/-- Model of `_summarize_with_gemini` (`backend.py` 1133-1252): on success the
parsed dict gets `date` and `transcript` added and is returned as-is —
no defaults are installed for missing `tasks`/`highlights`/sections keys.
Only `json.loads(text)` sits in an inner `try` (1227-1231), so a decode
error raised inside the SDK call (`malformedEnvelope`) falls to the outer
generic handler (1250-1252). -/
def summarize_with_gemini (transcript now : String) : ProviderOutcome → SummaryResult
  | .libMissing => error_summary "Google GenAI Lib Missing" transcript
  | .keyMissing => error_summary "Gemini API Key Missing" transcript
  | .malformedJson _ => error_summary "Failed to parse AI response" transcript
  | .malformedEnvelope =>
    error_summary ("Gemini Error: " ++ safe_error_message .malformedEnvelope) transcript
  | .connectionFailed =>
    error_summary ("Gemini Error: " ++ safe_error_message .connectionFailed) transcript
  | .requestTimeout =>
    error_summary ("Gemini Error: " ++ safe_error_message .requestTimeout) transcript
  | .otherError m =>
    error_summary ("Gemini Error: " ++ safe_error_message (.otherError m)) transcript
  | .ok j =>
    { title := j.title, executive_summary := j.executive_summary,
      full_summary := none, tasks := j.tasks, highlights := j.highlights,
      full_summary_sections := j.full_summary_sections,
      transcript := some transcript, date := some now }

/-- Model of `_summarize_with_ollama` (`backend.py` 1257-1373): health-check and
request failures go through `error_summary`; a parse failure of the
response body (`json.loads(text)`, 1330) happens with `text` bound and is
salvaged into a degraded record from the raw text; success backfills the
missing list keys.  The function is **not total**: when the HTTP envelope
itself fails to decode (`response.json()`, 1320), the
`json.JSONDecodeError` handler at 1360-1361 evaluates
`text[:500] if text else ...` with the local `text` still unbound (its
first assignment is line 1321), so the handler raises `UnboundLocalError`
out of the function — modelled as the `Except.error` case.  The
library/credential constructors do not arise for the local Ollama
provider and are mapped to the health-check failure path. -/
def summarize_with_ollama (transcript now model : String) :
    ProviderOutcome → Except String SummaryResult
  | .libMissing =>
    .ok (error_summary "Ollama not running. Start with: ollama serve" transcript)
  | .keyMissing =>
    .ok (error_summary "Ollama not running. Start with: ollama serve" transcript)
  | .connectionFailed =>
    .ok (error_summary "Ollama not running. Start with: ollama serve" transcript)
  | .requestTimeout =>
    .ok (error_summary ("Ollama timed out after 180s (model: " ++ model
      ++ "). Try a smaller model.") transcript)
  | .malformedEnvelope =>
    .error "UnboundLocalError: local variable text referenced before assignment"
  | .malformedJson raw =>
    .ok { title := some ("Meeting " ++ now), date := some now,
          executive_summary :=
            some (if raw.isEmpty then "Ollama returned unparseable output."
                  else String.mk (raw.data.take 500)),
          full_summary := some raw, tasks := some [],
          highlights := none, full_summary_sections := none,
          transcript := some transcript }
  | .otherError m =>
    .ok (error_summary ("Ollama error: " ++ safe_error_message (.otherError m)) transcript)
  | .ok j =>
    .ok { title := j.title, executive_summary := j.executive_summary,
          full_summary := none, tasks := some (j.tasks.getD []),
          highlights := some (j.highlights.getD []),
          full_summary_sections := some (j.full_summary_sections.getD []),
          transcript := some transcript, date := some now }

/-- Model of `_summarize_with_openai` (`backend.py` 1375-1450): success backfills
the missing list keys.  The function-level `json.JSONDecodeError` handler
(1445-1447) also catches a decode error raised inside the SDK call
(`malformedEnvelope`). -/
def summarize_with_openai (transcript now : String) : ProviderOutcome → SummaryResult
  | .libMissing =>
    error_summary "OpenAI library not installed (pip install openai)" transcript
  | .keyMissing => error_summary "OpenAI API Key Missing" transcript
  | .malformedJson _ => error_summary "OpenAI returned invalid JSON" transcript
  | .malformedEnvelope => error_summary "OpenAI returned invalid JSON" transcript
  | .connectionFailed =>
    error_summary ("OpenAI error: " ++ safe_error_message .connectionFailed) transcript
  | .requestTimeout =>
    error_summary ("OpenAI error: " ++ safe_error_message .requestTimeout) transcript
  | .otherError m =>
    error_summary ("OpenAI error: " ++ safe_error_message (.otherError m)) transcript
  | .ok j =>
    { title := j.title, executive_summary := j.executive_summary,
      full_summary := none, tasks := some (j.tasks.getD []),
      highlights := some (j.highlights.getD []),
      full_summary_sections := some (j.full_summary_sections.getD []),
      transcript := some transcript, date := some now }

/-- Model of `_summarize_with_anthropic` (`backend.py` 1452-1527): same shape as the
OpenAI branch, including its function-level `json.JSONDecodeError` handler
(1522-1524). -/
def summarize_with_anthropic (transcript now : String) : ProviderOutcome → SummaryResult
  | .libMissing =>
    error_summary "Anthropic library not installed (pip install anthropic)" transcript
  | .keyMissing => error_summary "Anthropic API Key Missing" transcript
  | .malformedJson _ => error_summary "Anthropic returned invalid JSON" transcript
  | .malformedEnvelope => error_summary "Anthropic returned invalid JSON" transcript
  | .connectionFailed =>
    error_summary ("Anthropic error: " ++ safe_error_message .connectionFailed) transcript
  | .requestTimeout =>
    error_summary ("Anthropic error: " ++ safe_error_message .requestTimeout) transcript
  | .otherError m =>
    error_summary ("Anthropic error: " ++ safe_error_message (.otherError m)) transcript
  | .ok j =>
    { title := j.title, executive_summary := j.executive_summary,
      full_summary := none, tasks := some (j.tasks.getD []),
      highlights := some (j.highlights.getD []),
      full_summary_sections := some (j.full_summary_sections.getD []),
      transcript := some transcript, date := some now }

/-- Model of `generate_summary` (`backend.py` 1100-1112): dispatch on the configured
provider name, defaulting every unknown name to `error_summary`.  The
result is `Except`: `Except.error` is an exception escaping the call, and
the only branch that can raise is the Ollama one (the `UnboundLocalError`
of its envelope-decode path); every other branch catches all of its
failures and returns a record. -/
def generate_summary (llm transcript now model : String)
    (outcome : ProviderOutcome) : Except String SummaryResult :=
  if llm = "gemini" then Except.ok (summarize_with_gemini transcript now outcome)
  else if llm = "ollama" then summarize_with_ollama transcript now model outcome
  else if llm = "openai" then Except.ok (summarize_with_openai transcript now outcome)
  else if llm = "anthropic" then Except.ok (summarize_with_anthropic transcript now outcome)
  else Except.ok (error_summary ("Unsupported LLM: " ++ llm) transcript)

/-! ## Meeting coach (`backend.py` 781-1005)

Coach alerts are dicts with the keys built in `_check_time_warnings`
(900-908) and in the alert-appending block of `live_coach_loop`
(967-974); `timestamp` is absent when `recording_start_time` is unset.
The shared coach state is `coach_alerts` plus `meeting_context`
(installed by `set_meeting_context`, 781-790); elapsed wall-clock time
enters as an explicit per-tick parameter. -/

structure CoachAlert where
  id : String
  timestamp : Option String
  type : String
  severity : String
  message : String
  agenda_item : Option String
  source : String
deriving Repr, DecidableEq

structure AgendaItem where
  text : String
  covered : Bool
  time_mentioned : Option String
deriving Repr, DecidableEq

structure MeetingContext where
  agenda : List AgendaItem
  notes : String
  expected_duration_minutes : Option ℕ
  company_context : List String
deriving Repr, DecidableEq

/-- The coach state shared through `self._state_lock`, plus whether
`recording_start_time` is set (it is, from `start_recording` on). -/
structure CoachShared where
  coach_alerts : List CoachAlert
  meeting_context : MeetingContext
  has_start_time : Bool
deriving Repr, DecidableEq

/-- Model of `set_meeting_context` (`backend.py` 781-790): fresh uncovered agenda
items, empty alert list. -/
def set_meeting_context (agenda_items : List String) (notes : String)
    (duration_minutes : Option ℕ) (company_context : List String) : CoachShared :=
  { coach_alerts := [],
    meeting_context :=
      { agenda := agenda_items.map (fun t =>
          { text := t, covered := false, time_mentioned := none }),
        notes := notes, expected_duration_minutes := duration_minutes,
        company_context := company_context },
    has_start_time := true }

/-- The three `(pct, severity, message)` rows of `_check_time_warnings`
produce these alert keys: `f"time_\x7bint(pct * 100)\x7d"`. -/
def thresholdKey (pct : ℚ) : String :=
  "time_" ++ toString (pyInt (pct * 100))

/-- The alert dict `_check_time_warnings` appends. -/
def timeAlert (key ts severity message : String) : CoachAlert :=
  { id := key, timestamp := some ts, type := "time_warning",
    severity := severity, message := message, agenda_item := none,
    source := "coach" }

/-- One row of the threshold loop in `_check_time_warnings` (893-915):
fire when elapsed time reached the fraction of the expected duration and
no alert whose id starts with the row's key was appended before. -/
def fireThreshold (expected : ℕ) (elapsed_minutes : ℚ) (pct : ℚ)
    (severity message : String) (alerts : List CoachAlert) : List CoachAlert :=
  if (expected : ℚ) * pct ≤ elapsed_minutes then
    if alerts.any (fun a => pyStartsWith a.id (thresholdKey pct)) then alerts
    else alerts ++ [timeAlert (thresholdKey pct)
      (fmtClock (pyInt (elapsed_minutes * 60))) severity message]
  else alerts

def timeMsg75 (elapsed_minutes : ℚ) (expected : ℕ) : String :=
  "75% of planned time used (" ++ toString (pyInt elapsed_minutes) ++ "m / "
    ++ toString expected ++ "m)"

def timeMsg90 (elapsed_minutes : ℚ) (expected : ℕ) : String :=
  "90% of planned time used (" ++ toString (pyInt elapsed_minutes) ++ "m / "
    ++ toString expected ++ "m). Consider wrapping up."

def timeMsg100 (expected : ℕ) : String :=
  "Meeting has exceeded planned duration of " ++ toString expected ++ "m."

/-- Model of `_check_time_warnings` (`backend.py` 878-915): a no-op without an
expected duration (`None` or `0`, both falsy) or without a recording
start time; otherwise the three threshold rows run in order, each
deduplicated against the alerts present at that moment. -/
def check_time_warnings (expected_duration : Option ℕ) (has_start_time : Bool)
    (elapsed_minutes : ℚ) (alerts : List CoachAlert) : List CoachAlert :=
  match expected_duration with
  | none => alerts
  | some expected =>
    if expected = 0 ∨ has_start_time = false then alerts
    else
      fireThreshold expected elapsed_minutes 1 "critical" (timeMsg100 expected)
        (fireThreshold expected elapsed_minutes (9/10) "warning"
          (timeMsg90 elapsed_minutes expected)
          (fireThreshold expected elapsed_minutes (3/4) "info"
            (timeMsg75 elapsed_minutes expected) alerts))

/-- One alert of the parsed coach LLM result, with the id
`uuid.uuid4().hex[:8]` the loop assigns to it on arrival. -/
structure NewAlert where
  id : String
  type : String
  severity : String
  message : String
  agenda_item : Option String
deriving Repr, DecidableEq

structure AgendaStatus where
  text : String
  covered : Bool
deriving Repr, DecidableEq

/-- The parsed JSON of one successful coach tick. -/
structure CoachData where
  alerts : List NewAlert
  agenda_status : List AgendaStatus
deriving Repr, DecidableEq

/-- Environment of one iteration of `live_coach_loop`. -/
structure CoachTick where
  transcript : String
  result : Option CoachData
  error : Option String
  elapsed_minutes : ℚ
deriving Repr, DecidableEq

/-- The alert dict appended for an LLM-returned alert (`backend.py`
967-974). -/
def assignAlert (has_start_time : Bool) (elapsed_minutes : ℚ)
    (na : NewAlert) : CoachAlert :=
  { id := na.id,
    timestamp := if has_start_time
      then some (fmtClock (pyInt (elapsed_minutes * 60))) else none,
    type := na.type, severity := na.severity, message := na.message,
    agenda_item := na.agenda_item, source := "coach" }

/-- One `agenda_status` entry applied to the agenda (`backend.py`
977-985): a matching, newly covered item flips `covered` and records the
elapsed time when a start time exists. -/
def applyAgendaStatus (has_start_time : Bool) (elapsed_minutes : ℚ)
    (agenda : List AgendaItem) (status : AgendaStatus) : List AgendaItem :=
  agenda.map (fun item =>
    if item.text = status.text ∧ status.covered ∧ item.covered = false then
      { item with
        covered := true,
        time_mentioned := if has_start_time
          then some (fmtClock (pyInt (elapsed_minutes * 60)))
          else item.time_mentioned }
    else item)

def applyAgendaUpdates (has_start_time : Bool) (elapsed_minutes : ℚ)
    (statuses : List AgendaStatus) (agenda : List AgendaItem) : List AgendaItem :=
  statuses.foldl (applyAgendaStatus has_start_time elapsed_minutes) agenda

/-- One iteration of `live_coach_loop` (931-1003): skip the whole body —
including the time check — when the stripped transcript is shorter than
50 characters; break on a fatal LLM error tag; otherwise append the
result's alerts and agenda updates when parsed data arrived, and finally
run `_check_time_warnings`.  The boolean is whether the loop continues. -/
def coachTickStep (t : CoachTick) (st : CoachShared) : CoachShared × Bool :=
  if (pyStrip t.transcript).length < 50 then (st, true)
  else if isFatalInsightError t.error then (st, false)
  else
    let st1 :=
      match t.result with
      | some data =>
        { st with
          coach_alerts := st.coach_alerts
            ++ data.alerts.map (assignAlert st.has_start_time t.elapsed_minutes),
          meeting_context := { st.meeting_context with
            agenda := applyAgendaUpdates st.has_start_time t.elapsed_minutes
              data.agenda_status st.meeting_context.agenda } }
      | none => st
    ({ st1 with
        coach_alerts := check_time_warnings
          st1.meeting_context.expected_duration_minutes st1.has_start_time
          t.elapsed_minutes st1.coach_alerts }, true)

/-- Model of `live_coach_loop` as a fold over the iterations run while
`is_recording` holds, stopping early on a fatal LLM error. -/
def coachLoop : List CoachTick → CoachShared → CoachShared
  | [], st => st
  | t :: rest, st =>
    let step := coachTickStep t st
    if step.2 then coachLoop rest step.1 else step.1

/-- The dedup keys of the three time thresholds. -/
def timeKeys : List String := ["time_75", "time_90", "time_100"]

/-- Number of stored alerts a threshold key's dedup test matches. -/
def countKey (alerts : List CoachAlert) (key : String) : ℕ :=
  (alerts.filter (fun a => pyStartsWith a.id key)).length

/-- The `(pct, dedup key)` rows of the `_check_time_warnings` threshold
table. -/
def thresholdRows : List (ℚ × String) :=
  [(3/4, "time_75"), (9/10, "time_90"), (1, "time_100")]

/-- The ids `uuid.uuid4().hex[:8]` assigns to LLM coach alerts are eight
hexadecimal characters, so they never start with a time-threshold key;
this predicate states that side condition for a tick's result. -/
def tickIdsOk (t : CoachTick) : Prop :=
  ∀ data, t.result = some data →
    ∀ na ∈ data.alerts, pyStartsWith na.id "time_" = false

/-- A tick that does not break the coach loop: either it is skipped by the
minimum-transcript gate or its LLM outcome is not a fatal error tag. -/
def tickContinues (t : CoachTick) : Prop :=
  (pyStrip t.transcript).length < 50 ∨ isFatalInsightError t.error = false

/-! ## Concrete sample inputs used to evaluate the model -/

/-- A transcript snapshot long enough to pass the 50-character gates. -/
def sampleTranscript50 : String := String.mk (List.replicate 50 'a')

/-- A first successful insight tick result: one action item, one decision. -/
def insightDelta1 : InsightDelta :=
  { meeting_type := some (some "standup"), confidence := some (9/10),
    key_points := some ["status review"],
    action_items := some [{ text := "send report", assignee := some "alice" }],
    decisions := some ["ship v2"], sentiment := some "productive",
    suggested_questions := some [], topic := some "planning" }

/-- A second successful insight tick result in which the model failed to
echo the earlier items: both lists come back empty. -/
def insightDelta2 : InsightDelta :=
  { meeting_type := some (some "standup"), confidence := some (9/10),
    key_points := some ["status review"], action_items := some [],
    decisions := some [], sentiment := some "productive",
    suggested_questions := some [], topic := some "planning" }

/-- A successful insight tick carrying `insightDelta1`. -/
def insightTick1 : SummaryTick :=
  { transcript := sampleTranscript50, result := some insightDelta1,
    error := none, elapsed := none }

/-- A successful insight tick carrying `insightDelta2`. -/
def insightTick2 : SummaryTick :=
  { transcript := sampleTranscript50, result := some insightDelta2,
    error := none, elapsed := none }

/-- A well-formed provider response that simply has no `tasks` key. -/
def geminiNoTasksJson : SummaryJson :=
  { title := some "Weekly sync", executive_summary := some "Short summary.",
    tasks := none, highlights := some ["one highlight"],
    full_summary_sections := none }

/-- A well-formed provider response carrying a `tasks` list. -/
def geminiTasksJson : SummaryJson :=
  { title := some "Weekly sync", executive_summary := some "Short summary.",
    tasks := some [{ description := "send report", assignee := some "alice",
                     due_date := none }],
    highlights := none, full_summary_sections := none }

/-! # Theorems -/

/-! ## Claim C3 — stop idempotence -/

/-- Claim C3, as stated, is false: `stop_recording` is guarded only by
`_processing_audio`, not by the Capturing state.  From a capturing
session, the trace stop / finalization-completes / stop — a sequence of
stop invocations with no intervening start, the second arriving after the
session has returned to Idle — triggers two `process_audio` runs, not
exactly one. -/
theorem C3_stop_counterexample :
    (runSession capturingState
      [SessionEvent.stop, SessionEvent.finishProcessing, SessionEvent.stop]).finalize_runs
      = 2 := by
  decide

/-- Claim C3, amended: `stop_recording` is a no-op only while a previous
stop's finalization is still in flight.  A first stop on a session whose
finalization is not running triggers exactly one `process_audio` run, and
any further stop issued before that finalization completes is ignored
(`stop_recording` is idempotent); only after `_processing_audio` is
cleared can a further stop trigger a new run. -/
theorem C3_stop_idempotence_amended (s : SessionState) (h : s.processing = false) :
    (stop_recording s).finalize_runs = s.finalize_runs + 1 ∧
    stop_recording (stop_recording s) = stop_recording s := by
  constructor
  · simp [stop_recording, h]
  · by_cases hp : s.processing <;> simp [stop_recording, hp]

theorem C3_stop_idempotence_witness :
    (stop_recording capturingState).finalize_runs = capturingState.finalize_runs + 1 ∧
    stop_recording (stop_recording capturingState) = stop_recording capturingState :=
  C3_stop_idempotence_amended capturingState (by decide)

/-! ## Claim C4 — start is a no-op outside Idle -/

/-- Claim C4, as stated, is false: `start_recording` checks
`is_recording` and `model_loading` but never `_processing_audio`, so in
the Stopping/Finalization phase (recording flag already cleared,
finalization still running) a start call is not a no-op — it begins a new
session. -/
theorem C4_start_counterexample :
    stoppingState.is_recording = false ∧
    stoppingState.processing = true ∧
    (start_recording { device_ok := true } stoppingState).is_recording = true ∧
    (start_recording { device_ok := true } stoppingState).sessions_started
      = stoppingState.sessions_started + 1 := by
  decide

/-- Claim C4, amended: `start_recording` is a no-op while recording is
already in progress or while the speech-to-text model is still loading,
and calling start twice without an intervening stop is the same as
calling it once (so it leaves exactly one session running); but starts
are not guarded against the Stopping/Finalization phase of a previous
session. -/
theorem C4_start_noop_amended (env : DeviceEnv) (s s2 : SessionState)
    (h : s.is_recording = true ∨ s.model_loading = true) :
    start_recording env s = s ∧
    start_recording env (start_recording env s2) = start_recording env s2 := by
  constructor
  · rcases h with h | h <;> simp [start_recording, h]
  · by_cases h1 : s2.is_recording
    · simp [start_recording, h1]
    · by_cases h2 : s2.model_loading
      · simp [start_recording, h1, h2]
      · by_cases h3 : env.device_ok <;> simp [start_recording, h1, h2, h3]

theorem C4_start_noop_witness :
    start_recording { device_ok := true } capturingState = capturingState ∧
    start_recording { device_ok := true }
        (start_recording { device_ok := true } stoppingState)
      = start_recording { device_ok := true } stoppingState :=
  C4_start_noop_amended { device_ok := true } capturingState stoppingState (Or.inl rfl)

/-! ## Claim C6 — history prepend and retention -/

/-- Claim C6, as stated, is false in its retention part: `save_to_history`
prepends the record but writes the whole accumulated list out — there is
no truncation to a fixed retention count, so the written history grows
without bound (no retention bound `R` works for every prior history). -/
theorem C6_history_counterexample :
    (save_to_history (List.replicate 50 dummyEntry) "t" "now" dummyEntry).length = 51 ∧
    ¬ ∃ R : ℕ, ∀ h : List HistoryEntry,
        (save_to_history h "t" "now" dummyEntry).length ≤ R := by
  constructor
  · simp [save_to_history]
  · rintro ⟨R, hR⟩
    have h := hR (List.replicate R dummyEntry)
    simp [save_to_history] at h

/-- Claim C6, amended: persisting a finalized record prepends it (the
normalized record — missing transcript/timestamp keys filled in — becomes
the first element; prior records are kept unmerged and unmodified), but
the written history is the full accumulated list: its length always grows
by one and no retention truncation is applied. -/
theorem C6_history_prepend_amended (chat : List HistoryEntry) (t now : String)
    (s : HistoryEntry) :
    (save_to_history chat t now s).head? = some (normalizeEntry t now s) ∧
    (save_to_history chat t now s).tail = chat ∧
    (save_to_history chat t now s).length = chat.length + 1 ∧
    (normalizeEntry t now s).payload = s.payload ∧
    (normalizeEntry t now s).transcript = some (s.transcript.getD t) ∧
    (normalizeEntry t now s).timestamp = some (s.timestamp.getD now) := by
  refine ⟨rfl, rfl, by simp [save_to_history], rfl, rfl, rfl⟩

/-! ## Claim C7 — transcript tracker failures are transient -/

/-- Claim C7, as stated, is false for one failure class: when the stream
repair utility is missing (`ffmpeg` unresolved), a tick that reaches the
repair step does not retry — it breaks out of `live_transcribe_loop`,
terminating the tracker while recording is still active. -/
theorem C7_transcribe_counterexample :
    live_transcribe_tick
      { model_loaded := true, part_file_exists := true, file_size := some 9000,
        ffmpeg_available := false, ffmpeg := FfmpegOutcome.success,
        transcription := Except.ok "" }
      = TickResult.exitLoop := rfl

/-- Claim C7, amended: whenever the repair utility is available, no
failure ends the tracker loop — a missing/too-small part file, a repair
failure, a repair timeout, or a transcription error all make the tick
skip and retry on the next tick; only a missing `ffmpeg` terminates the
loop early. -/
theorem C7_transient_retry_amended (t : TranscribeTick)
    (h : t.ffmpeg_available = true) :
    live_transcribe_tick t = TickResult.continueLoop := by
  obtain ⟨ml, pe, fs, fa, ff, tr⟩ := t
  simp only at h
  subst h
  rcases fs with _ | sz
  · cases ml <;> cases pe <;> simp [live_transcribe_tick]
  · by_cases hsz : sz < 8000 <;>
      cases ml <;> cases pe <;> cases ff <;> rcases tr with e | txt <;>
      simp [live_transcribe_tick, hsz]

theorem C7_transient_retry_witness :
    live_transcribe_tick
      { model_loaded := true, part_file_exists := true, file_size := some 9000,
        ffmpeg_available := true, ffmpeg := FfmpegOutcome.timedOut,
        transcription := Except.error "decode failure" }
      = TickResult.continueLoop :=
  C7_transient_retry_amended _ rfl

/-! ## Claim C9 — dual-stream mix stays in the 16-bit range -/

theorem mixSample_bounds (m l r : ℤ) :
    -32768 ≤ mixSample m l r ∧ mixSample m l r ≤ 32767 := by
  unfold mixSample clipInt16
  exact ⟨le_max_left _ _, max_le (by norm_num) (min_le_right _ _)⟩

/-- Claim C9, confirmed: every sample `record_dual_device` writes — the
clamp of the microphone sample plus the (wrapping) downmix of the system
frame — lies in the signed 16-bit range, for every pair of input frames. -/
theorem C9_mix_clamped :
    ∀ (mic : List ℤ) (sys : List (ℤ × ℤ)),
      ∀ x ∈ record_dual_mix mic sys, -32768 ≤ x ∧ x ≤ 32767 := by
  intro mic
  induction mic with
  | nil => intro sys x hx; simp [record_dual_mix] at hx
  | cons m ms ih =>
    intro sys x hx
    cases sys with
    | nil => simp [record_dual_mix] at hx
    | cons s ss =>
      rw [record_dual_mix, List.zipWith_cons_cons] at hx
      rcases List.mem_cons.mp hx with h | h
      · subst h; exact mixSample_bounds m s.1 s.2
      · exact ih ss x h

/-- The max-amplitude scenario of the spec: a full-scale microphone frame
mixed with a full-scale stereo system frame stays in range. -/
theorem C9_mix_clamped_witness :
    32766 ∈ record_dual_mix [32767] [(32767, 32767)] ∧
    -32768 ≤ (32766 : ℤ) ∧ (32766 : ℤ) ≤ 32767 :=
  ⟨by decide, C9_mix_clamped [32767] [(32767, 32767)] 32766 (by decide)⟩

/-! ## Claim C1 — atomic publish of the audio file -/

theorem runRec_append (fs : RecFS) (a b : List RecEvent) :
    runRec fs (a ++ b) = runRec (runRec fs a) b :=
  List.foldl_append _ _ _ _

theorem runRec_writeFrames (c : Option ℕ) (k : ℕ) (frames : List ℕ) :
    runRec { canonical := c, part := some k } (frames.map RecEvent.writeFrame)
      = { canonical := c, part := some (k + frames.sum) } := by
  induction frames generalizing k with
  | nil => simp [runRec]
  | cons f fs ih =>
    have h0 : runRec { canonical := c, part := some k }
        ((f :: fs).map RecEvent.writeFrame)
        = runRec { canonical := c, part := some (k + f) }
            (fs.map RecEvent.writeFrame) := rfl
    rw [h0, ih, List.sum_cons, ← add_assoc]

theorem runRec_capture_canonical (es : List RecEvent) (s : RecFS)
    (hs : s.canonical = none ∨ s.canonical = some 0)
    (hes : ∀ e ∈ es, ∀ b, e ≠ RecEvent.promote b) :
    (runRec s es).canonical = none ∨ (runRec s es).canonical = some 0 := by
  induction es generalizing s with
  | nil => exact hs
  | cons e es ih =>
    refine ih (recStep s e) ?_ (fun e2 he b => hes e2 (List.mem_cons_of_mem _ he) b)
    cases e with
    | mkstemp => exact Or.inr rfl
    | openPart => exact hs
    | writeFrame n => exact hs
    | promote b => exact absurd rfl (hes _ (List.mem_cons_self _ _) b)

theorem captureEvents_no_promote (frames : List ℕ) :
    ∀ e ∈ captureEvents frames, ∀ b, e ≠ RecEvent.promote b := by
  intro e he b
  simp only [captureEvents, List.mem_append, List.mem_cons,
    List.not_mem_nil, or_false, List.mem_map] at he
  rcases he with (rfl | rfl) | ⟨n, _, rfl⟩ <;> simp

/-- Claim C1, as stated, is false: `tempfile.mkstemp` creates a zero-byte
file at the canonical path the moment the session starts.  At a reachable
mid-capture point the canonical path therefore holds a present file of
size 0 — neither absent nor the size any completed write can have (a
completed write carries at least the 44-byte wave header; here 1068
bytes). -/
theorem C1_atomic_publish_counterexample :
    (runRec initFS
      [RecEvent.mkstemp, RecEvent.openPart, RecEvent.writeFrame 1024]).canonical
      = some 0 ∧
    (runRec initFS (record_audio_trace [1024] true)).canonical = some 1068 ∧
    (0 : ℕ) ≠ 1068 := by
  decide

/-- Claim C1, amended: samples are written only to the provisional
sibling, and the canonical path is promoted (rename, with the
copy-then-delete fallback reaching the same state) only after capture
completes; but between start and completion the canonical path is not
absent — it holds the empty placeholder `mkstemp` created (size 0, never
partial sample data).  After promotion it holds the complete header plus
all captured bytes and the sibling is gone. -/
theorem C1_atomic_publish_amended (frames : List ℕ) (renameOk : Bool)
    (pre : List RecEvent) (hpre : pre <+: captureEvents frames) :
    ((runRec initFS pre).canonical = none ∨ (runRec initFS pre).canonical = some 0) ∧
    runRec initFS (record_audio_trace frames renameOk)
      = { canonical := some (wavHeaderBytes + frames.sum), part := none } := by
  constructor
  · exact runRec_capture_canonical pre initFS (Or.inl rfl)
      (fun e he b => captureEvents_no_promote frames e (hpre.sublist.subset he) b)
  · have h1 : record_audio_trace frames renameOk
        = captureEvents frames ++ [RecEvent.promote renameOk] := by
      simp [record_audio_trace, captureEvents]
    have h2 : runRec initFS (captureEvents frames)
        = { canonical := some 0, part := some (wavHeaderBytes + frames.sum) } :=
      runRec_writeFrames (some 0) wavHeaderBytes frames
    rw [h1, runRec_append, h2]
    rfl

theorem C1_atomic_publish_witness :
    ((runRec initFS (captureEvents [1024])).canonical = none ∨
      (runRec initFS (captureEvents [1024])).canonical = some 0) ∧
    runRec initFS (record_audio_trace [1024] true)
      = { canonical := some (wavHeaderBytes + [1024].sum), part := none } :=
  C1_atomic_publish_amended [1024] true (captureEvents [1024]) (List.prefix_refl _)

/-! ## Claim C2 — insight merge unions the list fields -/

/-- Claim C2, as stated, is false: the merge is
`self.live_insights.update(data)`, which replaces every key present in
the tick's result.  Two consecutive successful ticks in which the second
result's lists come back empty lose the previously captured action item
and decision — the lists after the second tick are not supersets of
those after the first. -/
theorem C2_merge_counterexample :
    (summaryLoop "gemini" [insightTick1, insightTick2]
        initialSummaryLoopState).summary_count = 2 ∧
    (summaryLoop "gemini" [insightTick1] initialSummaryLoopState).insights.action_items
      = [{ text := "send report", assignee := some "alice" }] ∧
    (summaryLoop "gemini" [insightTick1] initialSummaryLoopState).insights.decisions
      = ["ship v2"] ∧
    (summaryLoop "gemini" [insightTick1, insightTick2]
        initialSummaryLoopState).insights.action_items = [] ∧
    (summaryLoop "gemini" [insightTick1, insightTick2]
        initialSummaryLoopState).insights.decisions = [] := by
  decide

/-- Claim C2, amended: a successful tick overwrites every field present
in the result — the list fields just like the scalar fields — with the
returned value; the action-item and decision lists after a merge are the
returned lists themselves, so they contain the earlier items exactly when
the model echoed them back (as the prompt instructs), not by any union
performed in the code. -/
theorem C2_merge_overwrite_amended (st : InsightState) (d : InsightDelta)
    (li : List ActionItem) (ld : List String) (mt : Option String)
    (hai : d.action_items = some li) (hd : d.decisions = some ld)
    (hmt : d.meeting_type = some mt) (hsub : st.action_items ⊆ li) :
    (mergeInsights st d).action_items = li ∧
    (mergeInsights st d).decisions = ld ∧
    (mergeInsights st d).meeting_type = mt ∧
    st.action_items ⊆ (mergeInsights st d).action_items := by
  refine ⟨by simp [mergeInsights, hai], by simp [mergeInsights, hd],
    by simp [mergeInsights, hmt], ?_⟩
  simpa [mergeInsights, hai] using hsub

theorem C2_merge_overwrite_witness :
    (mergeInsights initialInsightState insightDelta1).action_items
      = [{ text := "send report", assignee := some "alice" }] ∧
    (mergeInsights initialInsightState insightDelta1).decisions = ["ship v2"] ∧
    (mergeInsights initialInsightState insightDelta1).meeting_type = some "standup" ∧
    initialInsightState.action_items
      ⊆ (mergeInsights initialInsightState insightDelta1).action_items :=
  C2_merge_overwrite_amended initialInsightState insightDelta1 _ _ _ rfl rfl rfl
    (List.nil_subset _)

/-! ## Claim C8 — fatal LLM errors stop the insight loop -/

/-- Claim C8, confirmed: when a tick's `_call_llm_json` returns one of
the classified fatal tags — missing credential (`*_no_key`), provider
unreachable (`ollama_not_running`), provider library unavailable
(`*_unavailable`), or an unsupported provider — `live_summary_loop`
terminates after that tick: however many further iterations recording
would have allowed, exactly one LLM call is issued, and the loop leaves
the shared insight state and the recording flag exactly as they were. -/
theorem C8_fatal_error_stops_loop (llm : String) (rest : List SummaryTick)
    (t : SummaryTick) (e : String)
    (hlen : 50 ≤ (pyStrip t.transcript).length)
    (herr : t.error = some e)
    (hfatal : e ∈ fatalInsightErrors ∨ pyStartsWith e "unsupported_provider" = true) :
    summaryLoop llm (t :: rest) initialSummaryLoopState
      = { initialSummaryLoopState with calls := 1 } := by
  have hgate : ¬ (pyStrip t.transcript).length < 50 := by omega
  have hfatal2 : isFatalInsightError t.error = true := by
    rw [herr]
    rcases hfatal with h | h
    · simp [isFatalInsightError, List.contains, List.elem_iff, h]
    · simp [isFatalInsightError, h]
  simp [summaryLoop, hgate, hfatal2, initialSummaryLoopState]

theorem C8_fatal_error_stops_loop_witness :
    summaryLoop "gemini"
      [{ transcript := sampleTranscript50, result := none,
         error := some "gemini_no_key", elapsed := none }, insightTick2]
      initialSummaryLoopState
      = { initialSummaryLoopState with calls := 1 } :=
  C8_fatal_error_stops_loop "gemini" [insightTick2] _ "gemini_no_key"
    (by decide) rfl (Or.inl (by decide))

/-! ## Claim C10 — the summary router always returns a usable record -/

/-- Claim C10, as stated, is false in two independent ways.  (1) It does
raise: on an Ollama response whose HTTP envelope fails to decode as JSON,
the `json.JSONDecodeError` handler reads the still-unbound local `text`
and an `UnboundLocalError` escapes `generate_summary` — no dictionary is
returned at all.  (2) The Gemini success branch returns the parsed dict
without backfilling a missing `tasks` key (unlike the other three
branches), so a well-formed Gemini response with no `tasks` key yields a
record with no tasks list (its `transcript` key is still present). -/
theorem C10_summary_counterexample :
    generate_summary "ollama" "full transcript" "Oct 12 at 10:00 AM" "llama3:8b"
        ProviderOutcome.malformedEnvelope
      = Except.error
          "UnboundLocalError: local variable text referenced before assignment" ∧
    (generate_summary "gemini" "full transcript" "Oct 12 at 10:00 AM" "llama3:8b"
        (ProviderOutcome.ok geminiNoTasksJson)).toOption.map SummaryResult.tasks
      = some none ∧
    (generate_summary "gemini" "full transcript" "Oct 12 at 10:00 AM" "llama3:8b"
        (ProviderOutcome.ok geminiNoTasksJson)).toOption.map SummaryResult.transcript
      = some (some "full transcript") :=
  ⟨rfl, rfl, rfl⟩

/-- Claim C10, amended: whenever `generate_summary` returns a record at
all, that record holds the full input transcript under the `transcript`
key, and it carries a `tasks` list on every provider/outcome combination
except a Gemini response that parses but lacks the `tasks` key; and the
returning hypothesis excludes exactly one combination — the Ollama
envelope-decode failure, on which `generate_summary` raises
(`UnboundLocalError` from the unbound `text` in the parse-error handler)
instead of returning. -/
theorem C10_summary_total_amended (llm t now model : String) (o : ProviderOutcome)
    (r : SummaryResult)
    (h : generate_summary llm t now model o = Except.ok r)
    (hg : llm = "gemini" → ∀ j, o = ProviderOutcome.ok j → j.tasks ≠ none) :
    r.transcript = some t ∧ r.tasks ≠ none ∧
    ¬ (llm = "ollama" ∧ o = ProviderOutcome.malformedEnvelope) := by
  by_cases h1 : llm = "gemini"
  · subst h1
    rw [show generate_summary "gemini" t now model o
        = Except.ok (summarize_with_gemini t now o) from by simp [generate_summary]] at h
    injection h with h
    subst h
    refine ⟨?_, ?_, ?_⟩
    · cases o <;> simp [summarize_with_gemini, error_summary]
    · cases o with
      | ok j =>
        have hj := hg rfl j rfl
        rcases hx : j.tasks with _ | l
        · exact absurd hx hj
        · simp [summarize_with_gemini, hx]
      | libMissing => simp [summarize_with_gemini, error_summary]
      | keyMissing => simp [summarize_with_gemini, error_summary]
      | connectionFailed => simp [summarize_with_gemini, error_summary]
      | requestTimeout => simp [summarize_with_gemini, error_summary]
      | malformedJson raw => simp [summarize_with_gemini, error_summary]
      | malformedEnvelope => simp [summarize_with_gemini, error_summary]
      | otherError m => simp [summarize_with_gemini, error_summary]
    · rintro ⟨hc, -⟩
      exact absurd hc (by decide)
  · by_cases h2 : llm = "ollama"
    · subst h2
      rw [show generate_summary "ollama" t now model o
          = summarize_with_ollama t now model o from by simp [generate_summary]] at h
      cases o with
      | malformedEnvelope => simp [summarize_with_ollama] at h
      | libMissing =>
        simp only [summarize_with_ollama, Except.ok.injEq] at h
        subst h
        exact ⟨rfl, by simp [error_summary], by rintro ⟨-, hc⟩; cases hc⟩
      | keyMissing =>
        simp only [summarize_with_ollama, Except.ok.injEq] at h
        subst h
        exact ⟨rfl, by simp [error_summary], by rintro ⟨-, hc⟩; cases hc⟩
      | connectionFailed =>
        simp only [summarize_with_ollama, Except.ok.injEq] at h
        subst h
        exact ⟨rfl, by simp [error_summary], by rintro ⟨-, hc⟩; cases hc⟩
      | requestTimeout =>
        simp only [summarize_with_ollama, Except.ok.injEq] at h
        subst h
        exact ⟨rfl, by simp [error_summary], by rintro ⟨-, hc⟩; cases hc⟩
      | malformedJson raw =>
        simp only [summarize_with_ollama, Except.ok.injEq] at h
        subst h
        exact ⟨rfl, by simp, by rintro ⟨-, hc⟩; cases hc⟩
      | otherError m =>
        simp only [summarize_with_ollama, Except.ok.injEq] at h
        subst h
        exact ⟨rfl, by simp [error_summary], by rintro ⟨-, hc⟩; cases hc⟩
      | ok j =>
        simp only [summarize_with_ollama, Except.ok.injEq] at h
        subst h
        exact ⟨rfl, by simp, by rintro ⟨-, hc⟩; cases hc⟩
    · have hr : r.transcript = some t ∧ r.tasks ≠ none := by
        by_cases h3 : llm = "openai"
        · subst h3
          rw [show generate_summary "openai" t now model o
              = Except.ok (summarize_with_openai t now o) from by
                simp [generate_summary]] at h
          injection h with h
          subst h
          constructor
          · cases o <;> simp [summarize_with_openai, error_summary]
          · cases o <;> simp [summarize_with_openai, error_summary]
        · by_cases h4 : llm = "anthropic"
          · subst h4
            rw [show generate_summary "anthropic" t now model o
                = Except.ok (summarize_with_anthropic t now o) from by
                  simp [generate_summary]] at h
            injection h with h
            subst h
            constructor
            · cases o <;> simp [summarize_with_anthropic, error_summary]
            · cases o <;> simp [summarize_with_anthropic, error_summary]
          · rw [show generate_summary llm t now model o
                = Except.ok (error_summary ("Unsupported LLM: " ++ llm) t) from by
                  simp [generate_summary, h1, h2, h3, h4]] at h
            injection h with h
            subst h
            exact ⟨rfl, by simp [error_summary]⟩
      exact ⟨hr.1, hr.2, by rintro ⟨hc, -⟩; exact h2 hc⟩

theorem C10_summary_total_witness :
    ({ title := some "Weekly sync", executive_summary := some "Short summary.",
       full_summary := none,
       tasks := some [{ description := "send report", assignee := some "alice",
                        due_date := none }],
       highlights := none, full_summary_sections := none,
       transcript := some "full transcript",
       date := some "Oct 12 at 10:00 AM" } : SummaryResult).transcript
      = some "full transcript" ∧
    ({ title := some "Weekly sync", executive_summary := some "Short summary.",
       full_summary := none,
       tasks := some [{ description := "send report", assignee := some "alice",
                        due_date := none }],
       highlights := none, full_summary_sections := none,
       transcript := some "full transcript",
       date := some "Oct 12 at 10:00 AM" } : SummaryResult).tasks ≠ none ∧
    ¬ ("gemini" = "ollama" ∧
        ProviderOutcome.ok geminiTasksJson = ProviderOutcome.malformedEnvelope) :=
  C10_summary_total_amended "gemini" "full transcript" "Oct 12 at 10:00 AM"
    "llama3:8b" (ProviderOutcome.ok geminiTasksJson) _ rfl
    (fun _ j hj => by cases hj; decide)

/-! ## Claim C5 — time-budget alerts

Supporting lemmas about the dedup key counts of `_check_time_warnings`
and the coach loop. -/

theorem pyStartsWith_refl (s : String) : pyStartsWith s s = true := by
  unfold pyStartsWith
  exact List.isPrefixOf_iff_prefix.mpr (List.prefix_refl _)

theorem pyStartsWith_trans (s p q : String) (h1 : pyStartsWith s p = true)
    (h2 : pyStartsWith p q = true) : pyStartsWith s q = true := by
  unfold pyStartsWith at *
  rw [List.isPrefixOf_iff_prefix] at *
  exact h2.trans h1

theorem countKey_append (as bs : List CoachAlert) (k : String) :
    countKey (as ++ bs) k = countKey as k + countKey bs k := by
  simp [countKey, List.filter_append]

theorem countKey_eq_zero (alerts : List CoachAlert) (k : String) :
    countKey alerts k = 0 ↔ ∀ a ∈ alerts, ¬ pyStartsWith a.id k = true := by
  simp [countKey, List.length_eq_zero, List.filter_eq_nil_iff]

theorem countKey_singleton (a : CoachAlert) (k : String) :
    countKey [a] k = if pyStartsWith a.id k then 1 else 0 := by
  by_cases h : pyStartsWith a.id k <;> simp [countKey, List.filter_cons, h]

theorem thresholdKey_75 : thresholdKey (3/4) = "time_75" := by
  have h : pyInt ((3:ℚ)/4 * 100) = 75 := by norm_num [pyInt]
  rw [thresholdKey, h]
  decide

theorem thresholdKey_90 : thresholdKey (9/10) = "time_90" := by
  have h : pyInt ((9:ℚ)/10 * 100) = 90 := by norm_num [pyInt]
  rw [thresholdKey, h]
  decide

theorem thresholdKey_100 : thresholdKey 1 = "time_100" := by
  have h : pyInt ((1:ℚ) * 100) = 100 := by norm_num [pyInt]
  rw [thresholdKey, h]
  decide

theorem fireThreshold_countKey_other (expected : ℕ) (q pct : ℚ)
    (sev msg : String) (alerts : List CoachAlert) (k : String)
    (h : pyStartsWith (thresholdKey pct) k = false) :
    countKey (fireThreshold expected q pct sev msg alerts) k = countKey alerts k := by
  unfold fireThreshold
  split_ifs with h1 h2
  · rfl
  · rw [countKey_append, countKey_singleton]
    simp [timeAlert, h]
  · rfl

theorem fireThreshold_countKey_self_le (expected : ℕ) (q pct : ℚ)
    (sev msg : String) (alerts : List CoachAlert)
    (h : countKey alerts (thresholdKey pct) ≤ 1) :
    countKey (fireThreshold expected q pct sev msg alerts) (thresholdKey pct) ≤ 1 := by
  unfold fireThreshold
  split_ifs with h1 h2
  · exact h
  · have h0 : countKey alerts (thresholdKey pct) = 0 := by
      rw [countKey_eq_zero]
      intro a ha hk
      exact h2 (List.any_eq_true.mpr ⟨a, ha, hk⟩)
    rw [countKey_append, countKey_singleton, h0]
    simp [timeAlert, pyStartsWith_refl]
  · exact h

theorem fireThreshold_countKey_fired (expected : ℕ) (q pct : ℚ)
    (sev msg : String) (alerts : List CoachAlert)
    (hq : (expected : ℚ) * pct ≤ q) :
    1 ≤ countKey (fireThreshold expected q pct sev msg alerts) (thresholdKey pct) := by
  unfold fireThreshold
  rw [if_pos hq]
  split_ifs with h2
  · obtain ⟨a, ha, hk⟩ := List.any_eq_true.mp h2
    have hmem : a ∈ alerts.filter (fun a => pyStartsWith a.id (thresholdKey pct)) :=
      List.mem_filter.mpr ⟨ha, hk⟩
    exact List.length_pos_of_mem hmem
  · rw [countKey_append, countKey_singleton]
    simp [timeAlert, pyStartsWith_refl]

theorem check_time_countKey_le (exp : Option ℕ) (has : Bool) (q : ℚ)
    (alerts : List CoachAlert) (k : String) (hk : k ∈ timeKeys)
    (h : countKey alerts k ≤ 1) :
    countKey (check_time_warnings exp has q alerts) k ≤ 1 := by
  cases exp with
  | none => exact h
  | some expected =>
    simp only [check_time_warnings]
    split_ifs with hg
    · exact h
    · simp only [timeKeys, List.mem_cons, List.not_mem_nil, or_false] at hk
      rcases hk with rfl | rfl | rfl
      · rw [fireThreshold_countKey_other _ _ 1 _ _ _ _
            (by rw [thresholdKey_100]; decide),
          fireThreshold_countKey_other _ _ (9/10) _ _ _ _
            (by rw [thresholdKey_90]; decide),
          ← thresholdKey_75]
        exact fireThreshold_countKey_self_le _ _ _ _ _ _
          (by rw [thresholdKey_75]; exact h)
      · rw [fireThreshold_countKey_other _ _ 1 _ _ _ _
            (by rw [thresholdKey_100]; decide),
          ← thresholdKey_90]
        refine fireThreshold_countKey_self_le _ _ _ _ _ _ ?_
        rw [thresholdKey_90,
          fireThreshold_countKey_other _ _ (3/4) _ _ _ _
            (by rw [thresholdKey_75]; decide)]
        exact h
      · rw [← thresholdKey_100]
        refine fireThreshold_countKey_self_le _ _ _ _ _ _ ?_
        rw [thresholdKey_100,
          fireThreshold_countKey_other _ _ (9/10) _ _ _ _
            (by rw [thresholdKey_90]; decide),
          fireThreshold_countKey_other _ _ (3/4) _ _ _ _
            (by rw [thresholdKey_75]; decide)]
        exact h

theorem check_time_countKey_fired (expected : ℕ) (has : Bool) (q : ℚ)
    (alerts : List CoachAlert) (pct : ℚ) (key : String)
    (hrow : (pct, key) ∈ thresholdRows) (he : expected ≠ 0) (hs : has = true)
    (hq : (expected : ℚ) * pct ≤ q) :
    1 ≤ countKey (check_time_warnings (some expected) has q alerts) key := by
  simp only [check_time_warnings]
  rw [if_neg (by simp [he, hs])]
  simp only [thresholdRows, List.mem_cons, List.not_mem_nil, or_false,
    Prod.mk.injEq] at hrow
  rcases hrow with ⟨rfl, rfl⟩ | ⟨rfl, rfl⟩ | ⟨rfl, rfl⟩
  · rw [fireThreshold_countKey_other _ _ 1 _ _ _ _
        (by rw [thresholdKey_100]; decide),
      fireThreshold_countKey_other _ _ (9/10) _ _ _ _
        (by rw [thresholdKey_90]; decide),
      ← thresholdKey_75]
    exact fireThreshold_countKey_fired _ _ _ _ _ _ hq
  · rw [fireThreshold_countKey_other _ _ 1 _ _ _ _
        (by rw [thresholdKey_100]; decide),
      ← thresholdKey_90]
    exact fireThreshold_countKey_fired _ _ _ _ _ _ hq
  · rw [← thresholdKey_100]
    exact fireThreshold_countKey_fired _ _ _ _ _ _ hq

theorem countKey_llm_map_zero (has : Bool) (q : ℚ) (alerts : List NewAlert)
    (k : String) (hk : pyStartsWith k "time_" = true)
    (h : ∀ na ∈ alerts, pyStartsWith na.id "time_" = false) :
    countKey (alerts.map (assignAlert has q)) k = 0 := by
  rw [countKey_eq_zero]
  intro a ha hka
  simp only [List.mem_map] at ha
  obtain ⟨na, hna, rfl⟩ := ha
  have h2 : pyStartsWith na.id "time_" = true :=
    pyStartsWith_trans na.id k "time_" hka hk
  rw [h na hna] at h2
  exact Bool.false_ne_true h2

theorem coachLoop_cons (t : CoachTick) (ts : List CoachTick) (st : CoachShared) :
    coachLoop (t :: ts) st =
      if (coachTickStep t st).2 = true then coachLoop ts (coachTickStep t st).1
      else (coachTickStep t st).1 := rfl

theorem coachLoop_single (t : CoachTick) (st : CoachShared) :
    coachLoop [t] st = (coachTickStep t st).1 := by
  rw [coachLoop_cons]
  split_ifs <;> rfl

theorem tickContinues_step (t : CoachTick) (st : CoachShared)
    (h : tickContinues t) : (coachTickStep t st).2 = true := by
  rcases h with hg | hf
  · simp [coachTickStep, hg]
  · by_cases hg : (pyStrip t.transcript).length < 50
    · simp [coachTickStep, hg]
    · cases t.result <;> simp [coachTickStep, hg, hf]

theorem coachLoop_append_of_continues (ticks rest : List CoachTick)
    (st : CoachShared) (h : ∀ t ∈ ticks, tickContinues t) :
    coachLoop (ticks ++ rest) st = coachLoop rest (coachLoop ticks st) := by
  induction ticks generalizing st with
  | nil => rfl
  | cons t ts ih =>
    rw [List.cons_append, coachLoop_cons, coachLoop_cons,
      tickContinues_step t st (h t (List.mem_cons_self _ _))]
    simp only [if_true]
    exact ih (coachTickStep t st).1 (fun t2 ht2 => h t2 (List.mem_cons_of_mem _ ht2))

theorem coachTickStep_preserves (t : CoachTick) (st : CoachShared) :
    (coachTickStep t st).1.meeting_context.expected_duration_minutes
      = st.meeting_context.expected_duration_minutes ∧
    (coachTickStep t st).1.has_start_time = st.has_start_time := by
  unfold coachTickStep
  split_ifs
  · exact ⟨rfl, rfl⟩
  · exact ⟨rfl, rfl⟩
  · cases t.result <;> exact ⟨rfl, rfl⟩

theorem coachLoop_preserves (ticks : List CoachTick) (st : CoachShared) :
    (coachLoop ticks st).meeting_context.expected_duration_minutes
      = st.meeting_context.expected_duration_minutes ∧
    (coachLoop ticks st).has_start_time = st.has_start_time := by
  induction ticks generalizing st with
  | nil => exact ⟨rfl, rfl⟩
  | cons t ts ih =>
    rw [coachLoop_cons]
    split_ifs with hc
    · obtain ⟨h1, h2⟩ := ih (coachTickStep t st).1
      obtain ⟨h3, h4⟩ := coachTickStep_preserves t st
      exact ⟨h1.trans h3, h2.trans h4⟩
    · exact coachTickStep_preserves t st

theorem coachTickStep_countKey_le (t : CoachTick) (st : CoachShared) (k : String)
    (hk : k ∈ timeKeys) (hid : tickIdsOk t)
    (h : countKey st.coach_alerts k ≤ 1) :
    countKey (coachTickStep t st).1.coach_alerts k ≤ 1 := by
  have hk2 : pyStartsWith k "time_" = true := by
    have hk3 := hk
    simp only [timeKeys, List.mem_cons, List.not_mem_nil, or_false] at hk3
    rcases hk3 with rfl | rfl | rfl <;> decide
  unfold coachTickStep
  split_ifs with hg hf
  · exact h
  · exact h
  · cases hres : t.result with
    | none =>
      dsimp only
      exact check_time_countKey_le _ _ _ _ k hk h
    | some data =>
      dsimp only
      refine check_time_countKey_le _ _ _ _ k hk ?_
      rw [countKey_append, countKey_llm_map_zero _ _ _ _ hk2 (hid data hres)]
      omega

theorem coachLoop_countKey_le (ticks : List CoachTick) (st : CoachShared)
    (hids : ∀ t ∈ ticks, tickIdsOk t)
    (h : ∀ k ∈ timeKeys, countKey st.coach_alerts k ≤ 1) :
    ∀ k ∈ timeKeys, countKey (coachLoop ticks st).coach_alerts k ≤ 1 := by
  induction ticks generalizing st with
  | nil => exact h
  | cons t ts ih =>
    intro k hk
    rw [coachLoop_cons]
    split_ifs with hc
    · exact ih (coachTickStep t st).1
        (fun t2 ht2 => hids t2 (List.mem_cons_of_mem _ ht2))
        (fun k2 hk2 => coachTickStep_countKey_le t st k2 hk2
          (hids t (List.mem_cons_self _ _)) (h k2 hk2)) k hk
    · exact coachTickStep_countKey_le t st k hk
        (hids t (List.mem_cons_self _ _)) (h k hk)

theorem coachTickStep_countKey_fired (t : CoachTick) (st : CoachShared)
    (e : ℕ) (pct : ℚ) (key : String)
    (hrow : (pct, key) ∈ thresholdRows)
    (hexp : st.meeting_context.expected_duration_minutes = some e) (he : e ≠ 0)
    (hstart : st.has_start_time = true)
    (hgate : 50 ≤ (pyStrip t.transcript).length)
    (hfatal : isFatalInsightError t.error = false)
    (hq : (e : ℚ) * pct ≤ t.elapsed_minutes) :
    1 ≤ countKey (coachTickStep t st).1.coach_alerts key := by
  have hg : ¬ (pyStrip t.transcript).length < 50 := by omega
  unfold coachTickStep
  rw [if_neg hg, if_neg (by simp [hfatal])]
  cases t.result with
  | none =>
    dsimp only
    rw [hexp, hstart]
    exact check_time_countKey_fired e true t.elapsed_minutes _ pct key hrow he rfl hq
  | some data =>
    dsimp only
    rw [hexp, hstart]
    exact check_time_countKey_fired e true t.elapsed_minutes _ pct key hrow he rfl hq

/-- Claim C5, as stated, is false in its "runs on every coach tick"
part: a tick whose transcript snapshot is still below the 50-character
minimum skips the whole loop body — the time-budget check included — so a
session that crosses 100% of its 30-minute expected duration on such a
tick gets no critical alert at all. -/
theorem C5_time_budget_counterexample :
    (coachLoop
        [{ transcript := "", result := none, error := none, elapsed_minutes := 31 }]
        (set_meeting_context ["roadmap"] "" (some 30) [])).coach_alerts = [] ∧
    (30 : ℚ) * 1 ≤ 31 := by
  constructor
  · rfl
  · norm_num

/-- Claim C5, amended: the time-budget check runs — with no LLM
involvement — on every coach tick that passes the minimum-transcript gate
and does not hit a fatal LLM error; on such a tick, each crossed
threshold (75%, 90%, 100% of the expected duration) has exactly one alert
of its key, and no threshold's alert is ever appended a second time
during the session (LLM alert ids are hex strings, never
`time_`-prefixed). -/
theorem C5_time_budget_amended (ticks : List CoachTick) (t : CoachTick)
    (init : CoachShared) (e : ℕ) (pct : ℚ) (key : String)
    (hrow : (pct, key) ∈ thresholdRows)
    (hexp : init.meeting_context.expected_duration_minutes = some e) (he : e ≠ 0)
    (hstart : init.has_start_time = true)
    (hinit : ∀ k ∈ timeKeys, countKey init.coach_alerts k ≤ 1)
    (hids : ∀ tk ∈ ticks, tickIdsOk tk) (hidt : tickIdsOk t)
    (hcont : ∀ tk ∈ ticks, tickContinues tk)
    (hgate : 50 ≤ (pyStrip t.transcript).length)
    (hfatal : isFatalInsightError t.error = false)
    (hq : (e : ℚ) * pct ≤ t.elapsed_minutes) :
    countKey (coachLoop (ticks ++ [t]) init).coach_alerts key = 1 ∧
    countKey (coachLoop (ticks ++ [t]) init).coach_alerts "time_75" ≤ 1 ∧
    countKey (coachLoop (ticks ++ [t]) init).coach_alerts "time_90" ≤ 1 ∧
    countKey (coachLoop (ticks ++ [t]) init).coach_alerts "time_100" ≤ 1 := by
  have hstep : coachLoop (ticks ++ [t]) init
      = (coachTickStep t (coachLoop ticks init)).1 := by
    rw [coachLoop_append_of_continues ticks [t] init hcont, coachLoop_single]
  obtain ⟨hpe, hps⟩ := coachLoop_preserves ticks init
  have hcnt : ∀ k ∈ timeKeys, countKey (coachLoop ticks init).coach_alerts k ≤ 1 :=
    coachLoop_countKey_le ticks init hids hinit
  have hle : ∀ k ∈ timeKeys,
      countKey (coachLoop (ticks ++ [t]) init).coach_alerts k ≤ 1 := by
    intro k hk
    rw [hstep]
    exact coachTickStep_countKey_le t _ k hk hidt (hcnt k hk)
  have hfired : 1 ≤ countKey (coachLoop (ticks ++ [t]) init).coach_alerts key := by
    rw [hstep]
    exact coachTickStep_countKey_fired t _ e pct key hrow (hpe.trans hexp) he
      (hps.trans hstart) hgate hfatal hq
  have hkey : key ∈ timeKeys := by
    simp only [thresholdRows, List.mem_cons, Prod.mk.injEq, List.not_mem_nil,
      or_false] at hrow
    rcases hrow with ⟨_, rfl⟩ | ⟨_, rfl⟩ | ⟨_, rfl⟩ <;> simp [timeKeys]
  exact ⟨le_antisymm (hle key hkey) hfired, hle "time_75" (by simp [timeKeys]),
    hle "time_90" (by simp [timeKeys]), hle "time_100" (by simp [timeKeys])⟩

theorem C5_time_budget_witness :
    countKey (coachLoop
        [{ transcript := sampleTranscript50, result := none, error := none,
           elapsed_minutes := 31 }]
        (set_meeting_context ["roadmap"] "" (some 30) [])).coach_alerts
      "time_100" = 1 ∧
    countKey (coachLoop
        [{ transcript := sampleTranscript50, result := none, error := none,
           elapsed_minutes := 31 }]
        (set_meeting_context ["roadmap"] "" (some 30) [])).coach_alerts
      "time_75" ≤ 1 ∧
    countKey (coachLoop
        [{ transcript := sampleTranscript50, result := none, error := none,
           elapsed_minutes := 31 }]
        (set_meeting_context ["roadmap"] "" (some 30) [])).coach_alerts
      "time_90" ≤ 1 ∧
    countKey (coachLoop
        [{ transcript := sampleTranscript50, result := none, error := none,
           elapsed_minutes := 31 }]
        (set_meeting_context ["roadmap"] "" (some 30) [])).coach_alerts
      "time_100" ≤ 1 :=
  C5_time_budget_amended []
    { transcript := sampleTranscript50, result := none, error := none,
      elapsed_minutes := 31 }
    (set_meeting_context ["roadmap"] "" (some 30) []) 30 1 "time_100"
    (List.Mem.tail _ (List.Mem.tail _ (List.Mem.head _))) rfl (by decide) rfl
    (by decide)
    (fun tk htk => absurd htk (List.not_mem_nil _))
    (fun data h => Option.noConfusion h)
    (fun tk htk => absurd htk (List.not_mem_nil _))
    (by decide) rfl (by norm_num)

end NotSure
